import Mathlib

/-!
Shallow embedding of the client-side router of the `spa-with-pure-js`
repository: the `EnhancedRoutes` class (`src/app/enhanced-routes.js`) and the
navigation entry points `navigate` / `loadPageContent` (`src/app/app.js`).

Modelling conventions:
* JavaScript exceptions / promise rejections are modelled with `Except`;
  an error is its message string (the `stack` field of an `Error` is modelled
  as absent, so the optional stack block of the error page is empty).
* The asynchronous single-threaded execution is sequential, so `await` chains
  become ordinary sequential state passing on an explicit `World`.
* The browser world visible to the router — the content `<div>` (Content
  Sink), the history stack, the `globalScope.count` counter, the console and
  the recorded invocations of the `onError` hook — is bundled in `World`.
  Fallible operations return `Except (String × World) …` so that mutations
  performed before a throw persist, as they do in JavaScript.
* A stored content provider `async () => string` is modelled by the result of
  calling it: `Except String String`.
* A guard `(path, config) => boolean` may be asynchronous and may push history
  entries as a side effect (cf. `RouteGuards.authGuard`); it is modelled as a
  function returning `Except String (Bool × List String)`: either a thrown
  error, or the allow/deny flag together with the history paths it pushed.
  Guards in the source only read the data fields of the route configuration,
  so they receive `GuardCtx`, the data projection of `RouteConfig` (passing
  the full record would make the type self-referential).
* JavaScript `Map`s are association lists with `mapGet` / `mapSet`
  (set overwrites the existing binding of the key, as `Map.prototype.set`).
* The `content` div is assumed to exist (`document.getElementById('content')`
  non-null), as in the deployed page.
* HTML template literals are reproduced with their whitespace normalised.
-/

/-- Data fields of a route configuration, as seen by a guard. -/
structure GuardCtx where
  title : String
  description : String
  requiresAuth : Bool
deriving Repr, DecidableEq

/-- A route guard: receives the path and the route configuration, may throw,
and otherwise yields the allow/deny flag together with the list of history
entries it pushed as its own side effect. -/
abbrev Guard := String → GuardCtx → Except String (Bool × List String)

/-- The result of invoking a stored content provider. -/
abbrev PageContent := Except String String

/-- A route configuration entry, as stored in `EnhancedRoutes.routeConfig`. -/
structure RouteConfig where
  title : String
  description : String
  requiresAuth : Bool
  guards : List Guard
  meta : List (String × String)
  seoConfig : Option String

/-- The data projection of a route configuration handed to guards. -/
def RouteConfig.ctx (c : RouteConfig) : GuardCtx :=
  ⟨c.title, c.description, c.requiresAuth⟩

/-- The router-level hooks (`config` object of `EnhancedRoutes`). -/
structure RoutesConfig where
  onBeforeNavigate : Option (String → Except String Unit)
  onAfterNavigate : Option (String → Except String Unit)
  onError : Option (String → String → Except String Unit)

/-- The `EnhancedRoutes` instance: the `pages` map from path to content
provider, the `routeConfig` map, and the hook configuration. -/
structure EnhancedRoutes where
  pages : List (String × PageContent)
  routeConfig : List (String × RouteConfig)
  config : RoutesConfig

/-- The browser world the router mutates: the Content Sink's inner HTML, the
history stack (last entry = visible address), the offline-navigation counter
`globalScope.count`, the console warning and error logs, and the record of
`onError` hook invocations (each one `(error message, path)`). -/
structure World where
  content : String
  history : List String
  count : Int
  warnings : List String
  errorLog : List String
  errorHookCalls : List (String × String)
deriving Repr, DecidableEq

/-- `Map.prototype.get`: the value bound to `k`, if any. -/
def mapGet {α : Type} (m : List (String × α)) (k : String) : Option α :=
  match m with
  | [] => none
  | (k', v) :: rest => if k' = k then some v else mapGet rest k

/-- `Map.prototype.set`: overwrite the binding of `k`, or append it. -/
def mapSet {α : Type} (m : List (String × α)) (k : String) (v : α) :
    List (String × α) :=
  match m with
  | [] => [(k, v)]
  | (k', v') :: rest =>
      if k' = k then (k, v) :: rest else (k', v') :: mapSet rest k v

/-- `EnhancedRoutes.getRouteConfig`:
`this.routeConfig.get(path) || this.routeConfig.get('not-found')`. -/
def getRouteConfig (r : EnhancedRoutes) (path : String) : Option RouteConfig :=
  (mapGet r.routeConfig path).orElse fun _ => mapGet r.routeConfig "not-found"

/-- The provider looked up by `getPageContent`:
`this.pages.get(path) || this.pages.get('not-found')`. -/
def pageLookup (r : EnhancedRoutes) (path : String) : Option PageContent :=
  (mapGet r.pages path).orElse fun _ => mapGet r.pages "not-found"

/-- The `console.warn` message emitted when a guard blocks navigation. -/
def guardBlockedWarning (path : String) : String :=
  "Route guard blocked navigation to \"" ++ path ++ "\""

/-- `EnhancedRoutes.getErrorPageContent` (whitespace normalised; the error has
no stack, so the conditional stack block is empty). -/
def getErrorPageContent (msg : String) : String :=
  "<div class=\"error-container\" role=\"alert\"><h1>Something went wrong</h1><p>We encountered an error while loading this page.</p><details><summary>Error details</summary><pre>"
    ++ msg ++ "</pre></details><button onclick=\"location.reload()\">Reload Page</button></div>"

/-- The loading placeholder written by `EnhancedRoutes.showLoadingState`
(whitespace normalised). -/
def loadingStateContent : String :=
  "<div class=\"loading-container\" role=\"status\" aria-live=\"polite\"><div class=\"loading-spinner\"></div><p>Loading...</p></div>"

/-- The panel written by `showNavigationError` in `app.js`
(whitespace normalised). -/
def navigationErrorContent : String :=
  "<div class=\"error-container\" role=\"alert\"><h1>Navigation Error</h1><p>Failed to load the page. Please try again.</p><button onclick=\"location.reload()\" class=\"btn\">Reload Page</button><button onclick=\"window.history.back()\" class=\"btn btn-secondary\">Go Back</button></div>"

/-- The guard loop inside `EnhancedRoutes.runGuards`: evaluate the guards in
order; a guard's pushes are applied when it returns; on the first denial warn
and stop with `false`; a thrown guard error propagates. -/
def runGuardList (path : String) (cfg : RouteConfig) (gs : List Guard)
    (w : World) : Except (String × World) (Bool × World) :=
  match gs with
  | [] => .ok (true, w)
  | g :: rest =>
      match g path cfg.ctx with
      | .error e => .error (e, w)
      | .ok (canProceed, pushes) =>
          let w' := { w with history := w.history ++ pushes }
          if canProceed then
            runGuardList path cfg rest w'
          else
            .ok (false, { w' with
              warnings := w'.warnings ++ [guardBlockedWarning path] })

/-- `EnhancedRoutes.runGuards`: trivially allow when the configuration is
absent or its guard list is empty, otherwise run the guard loop. -/
def runGuards (r : EnhancedRoutes) (path : String) (w : World) :
    Except (String × World) (Bool × World) :=
  match getRouteConfig r path with
  | none => .ok (true, w)
  | some cfg =>
      if cfg.guards.isEmpty then .ok (true, w)
      else runGuardList path cfg cfg.guards w

/-- `EnhancedRoutes.getPageContent`: call the provider for the path (falling
back to `not-found`; if neither exists the call of `undefined` throws a
`TypeError`, caught by the same `catch`). On a caught error: log it, invoke
the `onError` hook if registered (recording the invocation; if the hook itself
throws, the throw escapes the `catch`), and return the error page content. -/
def getPageContent (r : EnhancedRoutes) (path : String) (w : World) :
    Except (String × World) (String × World) :=
  let callResult : Except String String :=
    match pageLookup r path with
    | some p => p
    | none => .error "getPageContent is not a function"
  match callResult with
  | .ok content => .ok (content, w)
  | .error e =>
      let w1 := { w with errorLog := w.errorLog ++
        ["Error loading page content for \"" ++ path ++ "\": " ++ e] }
      match r.config.onError with
      | none => .ok (getErrorPageContent e, w1)
      | some h =>
          let w2 := { w1 with errorHookCalls := w1.errorHookCalls ++ [(e, path)] }
          match h e path with
          | .ok _ => .ok (getErrorPageContent e, w2)
          | .error e2 => .error (e2, w2)

/-- The `try` block of `EnhancedRoutes.updatePageContent` (factored out of
`updatePageContent` as a named definition for the proofs): show the loading
state, resolve content, swap it in, await `onAfterNavigate`. -/
def tryBlock (r : EnhancedRoutes) (path : String) (w2 : World) :
    Except (String × World) World :=
  let w3 := { w2 with content := loadingStateContent }
  match getPageContent r path w3 with
  | .error ew => .error ew
  | .ok (content, w4) =>
      let w5 := { w4 with content := content }
      match r.config.onAfterNavigate with
      | none => .ok w5
      | some h =>
          match h path with
          | .ok _ => .ok w5
          | .error e => .error (e, w5)

/-- The `catch` block of `EnhancedRoutes.updatePageContent` (factored out as
a named definition for the proofs): log, write the error page into the
Content Sink, invoke `onError` (which may itself throw out of the `catch`). -/
def catchBlock (r : EnhancedRoutes) (path : String) (e : String) (we : World) :
    Except (String × World) World :=
  let we1 := { we with
    errorLog := we.errorLog ++ ["Error updating page content: " ++ e],
    content := getErrorPageContent e }
  match r.config.onError with
  | none => .ok we1
  | some h =>
      let we2 := { we1 with
        errorHookCalls := we1.errorHookCalls ++ [(e, path)] }
      match h e path with
      | .ok _ => .ok we2
      | .error e2 => .error (e2, we2)

/-- The `try`/`catch` statement of `EnhancedRoutes.updatePageContent`: run
the `try` block; a failure thrown inside it runs the `catch` block (whose own
failure propagates). -/
def tryCatchStmt (r : EnhancedRoutes) (path : String) (w2 : World) :
    Except (String × World) World :=
  match tryBlock r path w2 with
  | .ok w' => .ok w'
  | .error (e, we) => catchBlock r path e we

/-- `EnhancedRoutes.updatePageContent`: run guards (outside the `try`; a
denial returns with no further effect), await `onBeforeNavigate` (also outside
the `try`), then run the `try`/`catch` statement. -/
def updatePageContent (r : EnhancedRoutes) (path : String) (w : World) :
    Except (String × World) World :=
  match runGuards r path w with
  | .error ew => .error ew
  | .ok (false, w1) => .ok w1
  | .ok (true, w1) =>
      let beforeRes : Except (String × World) World :=
        match r.config.onBeforeNavigate with
        | none => .ok w1
        | some h =>
            match h path with
            | .ok _ => .ok w1
            | .error e => .error (e, w1)
      match beforeRes with
      | .error ew => .error ew
      | .ok w2 => tryCatchStmt r path w2

/-- `loadPageContent` in `app.js`: increment the offline-navigation counter
(and mirror it into the counter element), then delegate to
`updatePageContent`; its `catch` logs and re-throws. -/
def loadPageContent (r : EnhancedRoutes) (page : String) (w : World) :
    Except (String × World) World :=
  let w1 := { w with count := w.count + 1 }
  match updatePageContent r page w1 with
  | .ok w' => .ok w'
  | .error (e, we) =>
      .error (e, { we with
        errorLog := we.errorLog ++ ["Error loading page content: " ++ e] })

/-- `navigate` in `app.js` (the click event's `preventDefault()` is a browser
no-op here): push the new address as a new history entry, load the page
content, and catch any error by logging it and showing the navigation error
panel in the Content Sink. Never throws: its result type is plain `World`. -/
def navigate (r : EnhancedRoutes) (page : String) (w : World) : World :=
  let w1 := { w with history := w.history ++ ["/" ++ page] }
  match loadPageContent r page w1 with
  | .ok w' => w'
  | .error (e, we) =>
      { we with
        errorLog := we.errorLog ++ ["Navigation error: " ++ e],
        content := navigationErrorContent }

/-- Optional fields of the `config` argument of `registerRoute`. -/
structure RouteOptions where
  title : Option String
  description : Option String
  requiresAuth : Option Bool
  guards : Option (List Guard)
  meta : Option (List (String × String))
  seoConfig : Option String

/-- `EnhancedRoutes.registerRoute`: unconditionally set the provider and the
configuration for `path` (overwriting any existing binding); defaults are
filled with `||` as in the source. There is no validation of `path`. -/
def registerRoute (r : EnhancedRoutes) (path : String) (f : PageContent)
    (opts : RouteOptions) : EnhancedRoutes :=
  { r with
    pages := mapSet r.pages path f,
    routeConfig := mapSet r.routeConfig path
      { title := opts.title.getD "Page",
        description := opts.description.getD "",
        requiresAuth := opts.requiresAuth.getD false,
        guards := opts.guards.getD [],
        meta := opts.meta.getD [],
        seoConfig := opts.seoConfig } }

/-- `EnhancedRoutes.hasRoute`. -/
def hasRoute (r : EnhancedRoutes) (path : String) : Bool :=
  (mapGet r.pages path).isSome

/-! ## Hypothesis predicates used by the theorems -/

/-- The guard allows the navigation and performs no history side effect. -/
def guardAllows (path : String) (cfg : RouteConfig) (g : Guard) : Prop :=
  g path cfg.ctx = Except.ok (true, ([] : List String))

/-- Every guard of the route resolved for `path` allows without side effect. -/
def guardsPass (r : EnhancedRoutes) (path : String) : Prop :=
  ∀ cfg, getRouteConfig r path = some cfg → ∀ g ∈ cfg.guards, guardAllows path cfg g

/-- The before-navigation hook, if registered, succeeds on `path`. -/
def beforeHookOk (r : EnhancedRoutes) (path : String) : Prop :=
  ∀ h, r.config.onBeforeNavigate = some h → h path = Except.ok ()

/-- The after-navigation hook, if registered, succeeds on `path`. -/
def afterHookOk (r : EnhancedRoutes) (path : String) : Prop :=
  ∀ h, r.config.onAfterNavigate = some h → h path = Except.ok ()

/-! ## Helper lemmas -/

theorem runGuardList_of_allows (path : String) (cfg : RouteConfig)
    (gs : List Guard) (w : World) (h : ∀ g ∈ gs, guardAllows path cfg g) :
    runGuardList path cfg gs w = .ok (true, w) := by
  induction gs generalizing w with
  | nil => rfl
  | cons g rest ih =>
      have hg : g path cfg.ctx = Except.ok (true, ([] : List String)) :=
        h g (List.mem_cons_self g rest)
      have hrest : ∀ g' ∈ rest, guardAllows path cfg g' :=
        fun g' hm => h g' (List.mem_cons_of_mem _ hm)
      simp only [runGuardList, hg, List.append_nil]
      exact ih _ hrest

theorem runGuards_of_pass (r : EnhancedRoutes) (path : String) (w : World)
    (h : guardsPass r path) : runGuards r path w = .ok (true, w) := by
  unfold runGuards
  cases hc : getRouteConfig r path with
  | none => rfl
  | some cfg =>
      by_cases he : cfg.guards.isEmpty
      · simp only [he, if_true]
      · simp only [he, if_false]
        exact runGuardList_of_allows path cfg cfg.guards w (h cfg hc)

theorem tryBlock_happy (r : EnhancedRoutes) (path : String) (w : World)
    (c : String) (ha : afterHookOk r path)
    (hp : pageLookup r path = some (Except.ok c)) :
    tryBlock r path w = .ok { w with content := c } := by
  have hgp : getPageContent r path { w with content := loadingStateContent } =
      .ok (c, { w with content := loadingStateContent }) := by
    unfold getPageContent
    rw [hp]
  cases hA : r.config.onAfterNavigate with
  | none => simp only [tryBlock, hgp, hA]
  | some hk => simp only [tryBlock, hgp, hA, ha hk hA]

theorem updatePageContent_happy (r : EnhancedRoutes) (path : String)
    (w : World) (c : String)
    (hg : guardsPass r path) (hb : beforeHookOk r path) (ha : afterHookOk r path)
    (hp : pageLookup r path = some (Except.ok c)) :
    updatePageContent r path w = .ok { w with content := c } := by
  cases hB : r.config.onBeforeNavigate with
  | none =>
      simp only [updatePageContent, tryCatchStmt, runGuards_of_pass r path w hg, hB,
        tryBlock_happy r path w c ha hp]
  | some hk =>
      simp only [updatePageContent, tryCatchStmt, runGuards_of_pass r path w hg, hB,
        hb hk hB, tryBlock_happy r path w c ha hp]

theorem guardsPass_of_noGuards (r : EnhancedRoutes) (path : String)
    (h : ∀ cfg, getRouteConfig r path = some cfg → cfg.guards = []) :
    guardsPass r path := by
  intro cfg hc g hg
  rw [h cfg hc] at hg
  exact absurd hg (List.not_mem_nil g)

theorem beforeHookOk_of_none (r : EnhancedRoutes) (path : String)
    (h : r.config.onBeforeNavigate = none) : beforeHookOk r path := by
  intro hk hh
  rw [h] at hh
  cases hh

theorem afterHookOk_of_none (r : EnhancedRoutes) (path : String)
    (h : r.config.onAfterNavigate = none) : afterHookOk r path := by
  intro hk hh
  rw [h] at hh
  cases hh

/-! ## Concrete routers and worlds used in witnesses and counterexamples -/

/-- A route configuration with no guards and no SEO data. -/
def cfgPlain (t : String) : RouteConfig := ⟨t, "", false, [], [], none⟩

/-- A starting world. -/
def w0 : World := ⟨"<h1>Init</h1>", [], 0, [], [], []⟩

/-- A hook-free router with a `home` page and a `not-found` page. -/
def demoRouter : EnhancedRoutes :=
  { pages := [("home", Except.ok "<h1>Home</h1>"),
              ("not-found", Except.ok "<h1>404</h1>")],
    routeConfig := [("home", cfgPlain "Home"), ("not-found", cfgPlain "404")],
    config := { onBeforeNavigate := none, onAfterNavigate := none,
                onError := none } }

/-- Like `demoRouter`, but the after-navigation hook always throws. -/
def cexAfterHookRouter : EnhancedRoutes :=
  { pages := [("home", Except.ok "<h1>Home</h1>")],
    routeConfig := [("home", cfgPlain "Home")],
    config := { onBeforeNavigate := none,
                onAfterNavigate := some fun _ => Except.error "after hook failed",
                onError := none } }

/-! ## Claim C2 -/

/-- C2, counterexample: at a configuration whose after-navigation hook
throws, the path `home` is registered, all (zero) guards allow and the
provider resolves to `<h1>Home</h1>`, yet after `navigate` the Content Sink
holds the generic error panel, not the provider output — so the claim as
stated is false. -/
theorem navigate_success_claim_cex :
    mapGet cexAfterHookRouter.pages "home" = some (Except.ok "<h1>Home</h1>") ∧
    guardsPass cexAfterHookRouter "home" ∧
    (navigate cexAfterHookRouter "home" w0).content
      = getErrorPageContent "after hook failed" ∧
    (navigate cexAfterHookRouter "home" w0).content ≠ "<h1>Home</h1>" := by
  refine ⟨rfl, ?_, rfl, by decide⟩
  exact guardsPass_of_noGuards _ _ (by
    intro cfg hc
    rw [show getRouteConfig cexAfterHookRouter "home" = some (cfgPlain "Home")
      from rfl] at hc
    cases hc
    rfl)

/-- C2 (amended: additionally the before/after navigation hooks, if
registered, must succeed on `P` — otherwise the catch of `updatePageContent`
overwrites the swapped-in content with the error panel): for every registered
path whose guards all allow (without side effects), whose provider resolves
and whose hooks succeed, `navigate` leaves the Content Sink containing
exactly the provider output, pushes `/P` as a new history entry, and
increments the counter. -/
theorem navigate_success_amended (r : EnhancedRoutes) (page : String)
    (w : World) (c : String)
    (hp : mapGet r.pages page = some (Except.ok c))
    (hg : guardsPass r page) (hb : beforeHookOk r page)
    (ha : afterHookOk r page) :
    navigate r page w =
      { w with history := w.history ++ ["/" ++ page],
               count := w.count + 1,
               content := c } := by
  have hp' : pageLookup r page = some (Except.ok c) := by
    unfold pageLookup
    rw [hp]
    rfl
  simp only [navigate, loadPageContent]
  rw [updatePageContent_happy r page _ c hg hb ha hp']

/-- Witness for C2: the amended theorem applied to `demoRouter` at `home`. -/
theorem navigate_success_amended_witness :
    mapGet demoRouter.pages "home" = some (Except.ok "<h1>Home</h1>") ∧
    guardsPass demoRouter "home" ∧ beforeHookOk demoRouter "home" ∧
    afterHookOk demoRouter "home" ∧
    navigate demoRouter "home" w0 =
      { w0 with history := w0.history ++ ["/" ++ "home"],
                count := w0.count + 1,
                content := "<h1>Home</h1>" } := by
  have hg : guardsPass demoRouter "home" :=
    guardsPass_of_noGuards _ _ (by
      intro cfg hc
      rw [show getRouteConfig demoRouter "home" = some (cfgPlain "Home")
        from rfl] at hc
      cases hc
      rfl)
  have hb : beforeHookOk demoRouter "home" := beforeHookOk_of_none _ _ rfl
  have ha : afterHookOk demoRouter "home" := afterHookOk_of_none _ _ rfl
  exact ⟨rfl, hg, hb, ha,
    navigate_success_amended demoRouter "home" w0 "<h1>Home</h1>" rfl hg hb ha⟩

/-! ## Claim C3 -/

theorem getPageContent_providerFail (r : EnhancedRoutes) (path : String)
    (w : World) (e : String) (h : String → String → Except String Unit)
    (hp : pageLookup r path = some (Except.error e))
    (hE : r.config.onError = some h) (hh : h e path = Except.ok ()) :
    getPageContent r path w =
      .ok (getErrorPageContent e,
        { w with
          errorLog := w.errorLog ++
            ["Error loading page content for \"" ++ path ++ "\": " ++ e],
          errorHookCalls := w.errorHookCalls ++ [(e, path)] }) := by
  simp only [getPageContent, hp, hE, hh]

theorem tryBlock_pageError (r : EnhancedRoutes) (path : String) (w : World)
    (e : String) (h : String → String → Except String Unit)
    (ha : afterHookOk r path)
    (hp : pageLookup r path = some (Except.error e))
    (hE : r.config.onError = some h) (hh : h e path = Except.ok ()) :
    tryBlock r path w =
      .ok { w with
        content := getErrorPageContent e,
        errorLog := w.errorLog ++
          ["Error loading page content for \"" ++ path ++ "\": " ++ e],
        errorHookCalls := w.errorHookCalls ++ [(e, path)] } := by
  have hgp := getPageContent_providerFail r path
    { w with content := loadingStateContent } e h hp hE hh
  cases hA : r.config.onAfterNavigate with
  | none => simp only [tryBlock, hgp, hA]
  | some hk => simp only [tryBlock, hgp, hA, ha hk hA]

theorem updatePageContent_providerFail (r : EnhancedRoutes) (path : String)
    (w : World) (e : String) (h : String → String → Except String Unit)
    (hg : guardsPass r path) (hb : beforeHookOk r path)
    (ha : afterHookOk r path)
    (hp : pageLookup r path = some (Except.error e))
    (hE : r.config.onError = some h) (hh : h e path = Except.ok ()) :
    updatePageContent r path w =
      .ok { w with
        content := getErrorPageContent e,
        errorLog := w.errorLog ++
          ["Error loading page content for \"" ++ path ++ "\": " ++ e],
        errorHookCalls := w.errorHookCalls ++ [(e, path)] } := by
  cases hB : r.config.onBeforeNavigate with
  | none =>
      simp only [updatePageContent, tryCatchStmt, runGuards_of_pass r path w hg, hB,
        tryBlock_pageError r path w e h ha hp hE hh]
  | some hk =>
      simp only [updatePageContent, tryCatchStmt, runGuards_of_pass r path w hg, hB,
        hb hk hB, tryBlock_pageError r path w e h ha hp hE hh]

/-- A router whose `broken` provider rejects, whose error hook succeeds, and
whose after-navigation hook throws. -/
def cexDoubleHookRouter : EnhancedRoutes :=
  { pages := [("broken", Except.error "boom")],
    routeConfig := [("broken", cfgPlain "Broken")],
    config := { onBeforeNavigate := none,
                onAfterNavigate := some fun _ => Except.error "afterboom",
                onError := some fun _ _ => Except.ok () } }

/-- C3, counterexample: when the after-navigation hook also throws, the
error hook is invoked twice — once with the provider's rejection and once
with the hook failure — so "invoked exactly once with the original rejection
reason" is false as stated. -/
theorem errorHook_once_cex :
    mapGet cexDoubleHookRouter.pages "broken" = some (Except.error "boom") ∧
    (navigate cexDoubleHookRouter "broken" w0).errorHookCalls
      = [("boom", "broken"), ("afterboom", "broken")] ∧
    (navigate cexDoubleHookRouter "broken" w0).errorHookCalls
      ≠ [("boom", "broken")] :=
  ⟨rfl, rfl, by decide⟩

/-- C3 (amended: additionally the before/after navigation hooks and the error
hook itself must not throw — a throwing hook makes the `catch` of
`updatePageContent` fire and invoke the error hook a second time): when the
provider of a registered path rejects with reason `e`, `navigate` leaves the
generic error panel in the Content Sink and the registered error hook is
invoked exactly once, with `e` and the path. -/
theorem providerFailure_errorHook (r : EnhancedRoutes) (page : String)
    (w : World) (e : String) (h : String → String → Except String Unit)
    (hp : mapGet r.pages page = some (Except.error e))
    (hg : guardsPass r page) (hb : beforeHookOk r page)
    (ha : afterHookOk r page)
    (hE : r.config.onError = some h) (hh : h e page = Except.ok ()) :
    navigate r page w =
      { w with
        history := w.history ++ ["/" ++ page],
        count := w.count + 1,
        content := getErrorPageContent e,
        errorLog := w.errorLog ++
          ["Error loading page content for \"" ++ page ++ "\": " ++ e],
        errorHookCalls := w.errorHookCalls ++ [(e, page)] } := by
  have hp' : pageLookup r page = some (Except.error e) := by
    unfold pageLookup
    rw [hp]
    rfl
  simp only [navigate, loadPageContent]
  rw [updatePageContent_providerFail r page _ e h hg hb ha hp' hE hh]

/-- A router whose `broken` provider rejects and whose only hook is a
succeeding error hook. -/
def brokenRouter : EnhancedRoutes :=
  { pages := [("broken", Except.error "boom")],
    routeConfig := [("broken", cfgPlain "Broken")],
    config := { onBeforeNavigate := none, onAfterNavigate := none,
                onError := some fun _ _ => Except.ok () } }

/-- Witness for C3: the amended theorem applied to `brokenRouter`. -/
theorem providerFailure_errorHook_witness :
    mapGet brokenRouter.pages "broken" = some (Except.error "boom") ∧
    guardsPass brokenRouter "broken" ∧
    navigate brokenRouter "broken" w0 =
      { w0 with
        history := w0.history ++ ["/" ++ "broken"],
        count := w0.count + 1,
        content := getErrorPageContent "boom",
        errorLog := w0.errorLog ++
          ["Error loading page content for \"" ++ "broken" ++ "\": " ++ "boom"],
        errorHookCalls := w0.errorHookCalls ++ [("boom", "broken")] } := by
  have hg : guardsPass brokenRouter "broken" :=
    guardsPass_of_noGuards _ _ (by
      intro cfg hc
      rw [show getRouteConfig brokenRouter "broken" = some (cfgPlain "Broken")
        from rfl] at hc
      cases hc
      rfl)
  exact ⟨rfl, hg,
    providerFailure_errorHook brokenRouter "broken" w0 "boom"
      (fun _ _ => Except.ok ()) rfl hg
      (beforeHookOk_of_none _ _ rfl) (afterHookOk_of_none _ _ rfl) rfl rfl⟩

/-! ## Claim C4 -/

theorem runGuardList_denies (path : String) (cfg : RouteConfig)
    (gs1 : List Guard) (gd : Guard) (gs2 : List Guard) (ps : List String)
    (h1 : ∀ g ∈ gs1, guardAllows path cfg g)
    (hd : gd path cfg.ctx = Except.ok (false, ps)) :
    ∀ w : World,
      runGuardList path cfg (gs1 ++ gd :: gs2) w =
        .ok (false, { w with
          history := w.history ++ ps,
          warnings := w.warnings ++ [guardBlockedWarning path] }) := by
  induction gs1 with
  | nil =>
      intro w
      simp [runGuardList, hd]
  | cons g rest ih =>
      intro w
      have hg : g path cfg.ctx = Except.ok (true, ([] : List String)) :=
        h1 g (List.mem_cons_self g rest)
      have hrest : ∀ g' ∈ rest, guardAllows path cfg g' :=
        fun g' hm => h1 g' (List.mem_cons_of_mem _ hm)
      have ih' := ih hrest
      simp only [List.cons_append, runGuardList, hg, List.append_nil]
      exact ih' w

theorem runGuards_denies (r : EnhancedRoutes) (path : String) (w : World)
    (cfg : RouteConfig) (gs1 : List Guard) (gd : Guard) (gs2 : List Guard)
    (ps : List String)
    (hc : getRouteConfig r path = some cfg)
    (hsplit : cfg.guards = gs1 ++ gd :: gs2)
    (h1 : ∀ g ∈ gs1, guardAllows path cfg g)
    (hd : gd path cfg.ctx = Except.ok (false, ps)) :
    runGuards r path w =
      .ok (false, { w with
        history := w.history ++ ps,
        warnings := w.warnings ++ [guardBlockedWarning path] }) := by
  have hne : (gs1 ++ gd :: gs2).isEmpty = false := by
    cases gs1 <;> rfl
  simp only [runGuards, hc, hsplit, hne, Bool.false_eq_true, if_false]
  exact runGuardList_denies path cfg gs1 gd gs2 ps h1 hd w

/-- C4: if a guard for path `P` denies (after any earlier guards allowed),
`navigate` leaves the Content Sink's content exactly as it was before the
call — the loading placeholder is never shown, no error is logged and the
error hook is not invoked; the denial is reported as a `console.warn`
warning.  (The denying guard's own history pushes `ps` and the counter
increment do occur.) -/
theorem guardDenial_leaves_content (r : EnhancedRoutes) (page : String)
    (w : World) (cfg : RouteConfig) (gs1 : List Guard) (gd : Guard)
    (gs2 : List Guard) (ps : List String)
    (hc : getRouteConfig r page = some cfg)
    (hsplit : cfg.guards = gs1 ++ gd :: gs2)
    (h1 : ∀ g ∈ gs1, guardAllows page cfg g)
    (hd : gd page cfg.ctx = Except.ok (false, ps)) :
    navigate r page w =
      { w with
        history := (w.history ++ ["/" ++ page]) ++ ps,
        count := w.count + 1,
        warnings := w.warnings ++ [guardBlockedWarning page] } ∧
    (navigate r page w).content = w.content ∧
    (navigate r page w).errorLog = w.errorLog ∧
    (navigate r page w).errorHookCalls = w.errorHookCalls := by
  have key : navigate r page w =
      { w with
        history := (w.history ++ ["/" ++ page]) ++ ps,
        count := w.count + 1,
        warnings := w.warnings ++ [guardBlockedWarning page] } := by
    simp only [navigate, loadPageContent, updatePageContent]
    rw [runGuards_denies r page _ cfg gs1 gd gs2 ps hc hsplit h1 hd]
  exact ⟨key, by rw [key], by rw [key], by rw [key]⟩

/-- A router whose single `admin` route has one always-denying guard. -/
def denyRouter : EnhancedRoutes :=
  { pages := [("admin", Except.ok "<h1>Admin</h1>")],
    routeConfig := [("admin",
      ⟨"Admin", "", true, [fun _ _ => Except.ok (false, [])], [], none⟩)],
    config := { onBeforeNavigate := none, onAfterNavigate := none,
                onError := none } }

/-- Witness for C4: `guardDenial_leaves_content` applied to `denyRouter`. -/
theorem guardDenial_leaves_content_witness :
    navigate denyRouter "admin" w0 =
      { w0 with
        history := (w0.history ++ ["/" ++ "admin"]) ++ [],
        count := w0.count + 1,
        warnings := w0.warnings ++ [guardBlockedWarning "admin"] } ∧
    (navigate denyRouter "admin" w0).content = w0.content ∧
    (navigate denyRouter "admin" w0).errorLog = w0.errorLog ∧
    (navigate denyRouter "admin" w0).errorHookCalls = w0.errorHookCalls :=
  guardDenial_leaves_content denyRouter "admin" w0
    ⟨"Admin", "", true, [fun _ _ => Except.ok (false, [])], [], none⟩
    [] (fun _ _ => Except.ok (false, [])) [] []
    rfl rfl (fun g hm => absurd hm (List.not_mem_nil g)) rfl

/-! ## Claim C5 -/

theorem tryBlock_afterHookFail (r : EnhancedRoutes) (path : String)
    (w : World) (c e : String) (hk : String → Except String Unit)
    (hp : pageLookup r path = some (Except.ok c))
    (hA : r.config.onAfterNavigate = some hk)
    (hf : hk path = Except.error e) :
    tryBlock r path w = .error (e, { w with content := c }) := by
  have hgp : getPageContent r path { w with content := loadingStateContent } =
      .ok (c, { w with content := loadingStateContent }) := by
    unfold getPageContent
    rw [hp]
  simp only [tryBlock, hgp, hA, hf]

theorem catchBlock_noErrorHook (r : EnhancedRoutes) (path e : String)
    (we : World) (hE : r.config.onError = none) :
    catchBlock r path e we =
      .ok { we with
        errorLog := we.errorLog ++ ["Error updating page content: " ++ e],
        content := getErrorPageContent e } := by
  simp only [catchBlock, hE]

theorem updatePageContent_afterHookFail (r : EnhancedRoutes) (path : String)
    (w : World) (c e : String) (hk : String → Except String Unit)
    (hg : guardsPass r path) (hb : beforeHookOk r path)
    (hp : pageLookup r path = some (Except.ok c))
    (hA : r.config.onAfterNavigate = some hk) (hf : hk path = Except.error e)
    (hE : r.config.onError = none) :
    updatePageContent r path w =
      .ok { w with
        content := getErrorPageContent e,
        errorLog := w.errorLog ++ ["Error updating page content: " ++ e] } := by
  have hcatch := catchBlock_noErrorHook r path e { w with content := c } hE
  cases hB : r.config.onBeforeNavigate with
  | none =>
      simp only [updatePageContent, tryCatchStmt, runGuards_of_pass r path w hg, hB,
        tryBlock_afterHookFail r path w c e hk hp hA hf, hcatch]
  | some hkb =>
      simp only [updatePageContent, tryCatchStmt, runGuards_of_pass r path w hg, hB,
        hb hkb hB, tryBlock_afterHookFail r path w c e hk hp hA hf, hcatch]

/-- A router whose `home` provider resolves but whose after-navigation hook
always throws; no error hook is registered. -/
def cexRollbackRouter : EnhancedRoutes :=
  { pages := [("home", Except.ok "<h1>Home</h1>")],
    routeConfig := [("home", cfgPlain "Home")],
    config := { onBeforeNavigate := none,
                onAfterNavigate := some fun _ => Except.error "hookboom",
                onError := none } }

/-- C5, counterexample: the after-navigation hook failure is caught by the
`catch` of `updatePageContent`, which REPLACES the already-displayed provider
output (`<h1>Home</h1>`) with the generic error panel — so "does not roll
back (replace) the already-displayed content" is false as stated. -/
theorem afterHook_rollback_cex :
    (navigate cexRollbackRouter "home" w0).content
      = getErrorPageContent "hookboom" ∧
    (navigate cexRollbackRouter "home" w0).content ≠ "<h1>Home</h1>" :=
  ⟨rfl, by decide⟩

theorem catchBlock_errorHookOk (r : EnhancedRoutes) (path e : String)
    (we : World) (h : String → String → Except String Unit)
    (hE : r.config.onError = some h) (hh : h e path = Except.ok ()) :
    catchBlock r path e we =
      .ok { we with
        errorLog := we.errorLog ++ ["Error updating page content: " ++ e],
        content := getErrorPageContent e,
        errorHookCalls := we.errorHookCalls ++ [(e, path)] } := by
  simp only [catchBlock, hE, hh]

theorem updatePageContent_afterHookFailHook (r : EnhancedRoutes)
    (path : String) (w : World) (c e : String)
    (hk : String → Except String Unit)
    (h : String → String → Except String Unit)
    (hg : guardsPass r path) (hb : beforeHookOk r path)
    (hp : pageLookup r path = some (Except.ok c))
    (hA : r.config.onAfterNavigate = some hk) (hf : hk path = Except.error e)
    (hE : r.config.onError = some h) (hh : h e path = Except.ok ()) :
    updatePageContent r path w =
      .ok { w with
        content := getErrorPageContent e,
        errorLog := w.errorLog ++ ["Error updating page content: " ++ e],
        errorHookCalls := w.errorHookCalls ++ [(e, path)] } := by
  have hcatch := catchBlock_errorHookOk r path e { w with content := c } h hE hh
  cases hB : r.config.onBeforeNavigate with
  | none =>
      simp only [updatePageContent, tryCatchStmt,
        runGuards_of_pass r path w hg, hB,
        tryBlock_afterHookFail r path w c e hk hp hA hf, hcatch]
  | some hkb =>
      simp only [updatePageContent, tryCatchStmt,
        runGuards_of_pass r path w hg, hB, hb hkb hB,
        tryBlock_afterHookFail r path w c e hk hp hA hf, hcatch]

/-- C5 (amended): hook failures never escape `navigate`, but they are not
harmless. (i) A failure `e` of the after-navigation hook is caught by the
error boundary of `updatePageContent`, which logs it and REPLACES the
already-displayed provider content with the generic error panel; the error
hook, when one is registered (and itself succeeding), receives `(e, page)`.
(ii) A failure of the before-navigation hook aborts the cycle before the
loading state — the error hook is never invoked and the Content Sink is
never shown the generic panel — and is caught only at `navigate`'s own
boundary, which logs it and shows the navigation error panel. -/
theorem afterHook_failure_behavior (r : EnhancedRoutes) (page : String)
    (w : World) :
    (∀ (c e : String) (hk : String → Except String Unit),
       guardsPass r page → beforeHookOk r page →
       mapGet r.pages page = some (Except.ok c) →
       r.config.onAfterNavigate = some hk → hk page = Except.error e →
       ((r.config.onError = none →
           navigate r page w =
             { w with
               history := w.history ++ ["/" ++ page],
               count := w.count + 1,
               content := getErrorPageContent e,
               errorLog := w.errorLog ++
                 ["Error updating page content: " ++ e] }) ∧
        (∀ h, r.config.onError = some h → h e page = Except.ok () →
           navigate r page w =
             { w with
               history := w.history ++ ["/" ++ page],
               count := w.count + 1,
               content := getErrorPageContent e,
               errorLog := w.errorLog ++
                 ["Error updating page content: " ++ e],
               errorHookCalls := w.errorHookCalls ++ [(e, page)] }))) ∧
    (∀ (e : String) (hbk : String → Except String Unit),
       guardsPass r page →
       r.config.onBeforeNavigate = some hbk → hbk page = Except.error e →
       navigate r page w =
         { w with
           history := w.history ++ ["/" ++ page],
           count := w.count + 1,
           content := navigationErrorContent,
           errorLog := w.errorLog ++ ["Error loading page content: " ++ e]
             ++ ["Navigation error: " ++ e] }) := by
  constructor
  · intro c e hk hg hb hp hA hf
    have hp' : pageLookup r page = some (Except.ok c) := by
      unfold pageLookup
      rw [hp]
      rfl
    constructor
    · intro hE
      simp only [navigate, loadPageContent]
      rw [updatePageContent_afterHookFail r page _ c e hk hg hb hp' hA hf hE]
    · intro h hE hh
      simp only [navigate, loadPageContent]
      rw [updatePageContent_afterHookFailHook r page _ c e hk h hg hb hp'
        hA hf hE hh]
  · intro e hbk hg hB hbb
    have hupd : updatePageContent r page
        { w with history := w.history ++ ["/" ++ page],
                 count := w.count + 1 } =
        .error (e, { w with history := w.history ++ ["/" ++ page],
                            count := w.count + 1 }) := by
      simp only [updatePageContent,
        runGuards_of_pass r page
          { w with history := w.history ++ ["/" ++ page],
                   count := w.count + 1 } hg,
        hB, hbb]
    simp only [navigate, loadPageContent, hupd]

/-- Like `cexRollbackRouter`, but with a succeeding error hook registered. -/
def cexRollbackHookRouter : EnhancedRoutes :=
  { pages := [("home", Except.ok "<h1>Home</h1>")],
    routeConfig := [("home", cfgPlain "Home")],
    config := { onBeforeNavigate := none,
                onAfterNavigate := some fun _ => Except.error "hookboom2",
                onError := some fun _ _ => Except.ok () } }

/-- A router whose before-navigation hook always throws. -/
def cexBeforeHookRouter : EnhancedRoutes :=
  { pages := [("home", Except.ok "<h1>Home</h1>")],
    routeConfig := [("home", cfgPlain "Home")],
    config := { onBeforeNavigate := some fun _ => Except.error "beforeboom",
                onAfterNavigate := none, onError := none } }

/-- Witness for C5: all three parts of `afterHook_failure_behavior` at
concrete routers — after-hook failure without and with a registered error
hook, and before-hook failure. -/
theorem afterHook_failure_behavior_witness :
    navigate cexRollbackRouter "home" w0 =
      { w0 with
        history := w0.history ++ ["/" ++ "home"],
        count := w0.count + 1,
        content := getErrorPageContent "hookboom",
        errorLog := w0.errorLog ++
          ["Error updating page content: " ++ "hookboom"] } ∧
    navigate cexRollbackHookRouter "home" w0 =
      { w0 with
        history := w0.history ++ ["/" ++ "home"],
        count := w0.count + 1,
        content := getErrorPageContent "hookboom2",
        errorLog := w0.errorLog ++
          ["Error updating page content: " ++ "hookboom2"],
        errorHookCalls := w0.errorHookCalls ++ [("hookboom2", "home")] } ∧
    navigate cexBeforeHookRouter "home" w0 =
      { w0 with
        history := w0.history ++ ["/" ++ "home"],
        count := w0.count + 1,
        content := navigationErrorContent,
        errorLog := w0.errorLog ++
          ["Error loading page content: " ++ "beforeboom"]
          ++ ["Navigation error: " ++ "beforeboom"] } := by
  have hgA : guardsPass cexRollbackRouter "home" :=
    guardsPass_of_noGuards _ _ (by
      intro cfg hc
      rw [show getRouteConfig cexRollbackRouter "home" = some (cfgPlain "Home")
        from rfl] at hc
      cases hc
      rfl)
  have hgB : guardsPass cexRollbackHookRouter "home" :=
    guardsPass_of_noGuards _ _ (by
      intro cfg hc
      rw [show getRouteConfig cexRollbackHookRouter "home"
        = some (cfgPlain "Home") from rfl] at hc
      cases hc
      rfl)
  have hgC : guardsPass cexBeforeHookRouter "home" :=
    guardsPass_of_noGuards _ _ (by
      intro cfg hc
      rw [show getRouteConfig cexBeforeHookRouter "home"
        = some (cfgPlain "Home") from rfl] at hc
      cases hc
      rfl)
  refine ⟨?_, ?_, ?_⟩
  · exact ((afterHook_failure_behavior cexRollbackRouter "home" w0).1
      "<h1>Home</h1>" "hookboom" (fun _ => Except.error "hookboom") hgA
      (beforeHookOk_of_none _ _ rfl) rfl rfl rfl).1 rfl
  · exact ((afterHook_failure_behavior cexRollbackHookRouter "home" w0).1
      "<h1>Home</h1>" "hookboom2" (fun _ => Except.error "hookboom2") hgB
      (beforeHookOk_of_none _ _ rfl) rfl rfl rfl).2
      (fun _ _ => Except.ok ()) rfl rfl
  · exact (afterHook_failure_behavior cexBeforeHookRouter "home" w0).2
      "beforeboom" (fun _ => Except.error "beforeboom") hgC rfl rfl

/-! ## Claim C7 -/

/-- A router whose `not-found` provider itself rejects. -/
def cexNotFoundRouter : EnhancedRoutes :=
  { pages := [("not-found", Except.error "nf boom")],
    routeConfig := [("not-found", cfgPlain "404")],
    config := { onBeforeNavigate := none, onAfterNavigate := none,
                onError := none } }

/-- C7, counterexample: `missing` is unregistered and a `not-found` entry is
registered, yet `navigate` leaves the generic error panel in the Content Sink
(because the `not-found` provider rejects) — so "the `not-found` entry's
provider content, not an error panel" is false as stated. -/
theorem notFound_error_panel_cex :
    mapGet cexNotFoundRouter.pages "missing" = none ∧
    (mapGet cexNotFoundRouter.pages "not-found").isSome = true ∧
    (navigate cexNotFoundRouter "missing" w0).content
      = getErrorPageContent "nf boom" :=
  ⟨rfl, rfl, rfl⟩

/-- C7 (amended: additionally the `not-found` provider must resolve, the
guards applying to the fallback configuration must allow, and the hooks must
succeed): for an unregistered path `P`, `navigate(P)` leaves the `not-found`
entry's provider output in the Content Sink. -/
theorem notFound_fallback_amended (r : EnhancedRoutes) (page : String)
    (w : World) (c : String)
    (hmiss : mapGet r.pages page = none)
    (hnf : mapGet r.pages "not-found" = some (Except.ok c))
    (hg : guardsPass r page) (hb : beforeHookOk r page)
    (ha : afterHookOk r page) :
    navigate r page w =
      { w with history := w.history ++ ["/" ++ page],
               count := w.count + 1,
               content := c } := by
  have hp' : pageLookup r page = some (Except.ok c) := by
    unfold pageLookup
    rw [hmiss]
    exact hnf
  simp only [navigate, loadPageContent]
  rw [updatePageContent_happy r page _ c hg hb ha hp']

/-- Witness for C7: `demoRouter` on the unregistered path `missing`. -/
theorem notFound_fallback_amended_witness :
    mapGet demoRouter.pages "missing" = none ∧
    mapGet demoRouter.pages "not-found" = some (Except.ok "<h1>404</h1>") ∧
    navigate demoRouter "missing" w0 =
      { w0 with history := w0.history ++ ["/" ++ "missing"],
                count := w0.count + 1,
                content := "<h1>404</h1>" } := by
  have hg : guardsPass demoRouter "missing" :=
    guardsPass_of_noGuards _ _ (by
      intro cfg hc
      rw [show getRouteConfig demoRouter "missing" = some (cfgPlain "404")
        from rfl] at hc
      cases hc
      rfl)
  exact ⟨rfl, rfl,
    notFound_fallback_amended demoRouter "missing" w0 "<h1>404</h1>" rfl rfl hg
      (beforeHookOk_of_none _ _ rfl) (afterHookOk_of_none _ _ rfl)⟩

/-! ## Claim C8 -/

theorem mapGet_mapSet_self {α : Type} (m : List (String × α)) (k : String)
    (v : α) : mapGet (mapSet m k v) k = some v := by
  induction m with
  | nil => simp [mapSet, mapGet]
  | cons p rest ih =>
      obtain ⟨k', v'⟩ := p
      by_cases h : k' = k
      · subst h
        simp [mapSet, mapGet]
      · simp [mapSet, mapGet, h, ih]

theorem mapGet_mapSet_ne {α : Type} (m : List (String × α)) (k q : String)
    (v : α) (h : q ≠ k) : mapGet (mapSet m k v) q = mapGet m q := by
  have hk : ¬ (k = q) := fun hh => h hh.symm
  induction m with
  | nil => simp [mapSet, mapGet, hk]
  | cons p rest ih =>
      obtain ⟨k', v'⟩ := p
      by_cases h' : k' = k
      · subst h'
        simp [mapSet, mapGet, hk]
      · simp [mapSet, mapGet, h', ih]

/-- C8, counterexample: `registerRoute` performs no validation of `path`; at
the concrete input `""` it does not fail — it is a total operation and the
empty path is afterwards a registered route with the given provider. -/
theorem registerRoute_empty_path_cex :
    hasRoute (registerRoute demoRouter "" (Except.ok "<h1>Empty</h1>")
      ⟨none, none, none, none, none, none⟩) "" = true ∧
    mapGet (registerRoute demoRouter "" (Except.ok "<h1>Empty</h1>")
      ⟨none, none, none, none, none, none⟩).pages ""
      = some (Except.ok "<h1>Empty</h1>") :=
  ⟨rfl, rfl⟩

/-- C8 (amended: the empty-path check does not exist — `registerRoute`
accepts every path, the empty string included): registration is
last-writer-wins — the new provider and configuration silently overwrite any
existing entry for `path`, and every other path's entry is untouched. -/
theorem registerRoute_overwrite (r : EnhancedRoutes) (path q : String)
    (f : PageContent) (opts : RouteOptions) :
    mapGet (registerRoute r path f opts).pages path = some f ∧
    mapGet (registerRoute r path f opts).routeConfig path =
      some { title := opts.title.getD "Page",
             description := opts.description.getD "",
             requiresAuth := opts.requiresAuth.getD false,
             guards := opts.guards.getD [],
             meta := opts.meta.getD [],
             seoConfig := opts.seoConfig } ∧
    (q ≠ path →
      mapGet (registerRoute r path f opts).pages q = mapGet r.pages q) := by
  refine ⟨mapGet_mapSet_self _ _ _, mapGet_mapSet_self _ _ _, fun hq => ?_⟩
  exact mapGet_mapSet_ne _ _ _ _ hq

/-- Witness for C8: overwriting the existing `home` entry of `demoRouter`
leaves `not-found` untouched. -/
theorem registerRoute_overwrite_witness :
    mapGet (registerRoute demoRouter "home" (Except.ok "<h1>New</h1>")
      ⟨none, none, none, none, none, none⟩).pages "home"
      = some (Except.ok "<h1>New</h1>") ∧
    ("not-found" : String) ≠ "home" ∧
    mapGet (registerRoute demoRouter "home" (Except.ok "<h1>New</h1>")
      ⟨none, none, none, none, none, none⟩).pages "not-found"
      = mapGet demoRouter.pages "not-found" := by
  have hq : ("not-found" : String) ≠ "home" := by decide
  have h := registerRoute_overwrite demoRouter "home" "not-found"
    (Except.ok "<h1>New</h1>") ⟨none, none, none, none, none, none⟩
  exact ⟨h.1, hq, h.2.2 hq⟩

/-! ## Frame lemmas: what every branch of a navigation can do to the world -/

theorem runGuardList_frame (path : String) (cfg : RouteConfig)
    (gs : List Guard) (w : World) :
    (∃ b w1, runGuardList path cfg gs w = .ok (b, w1) ∧
       w1.count = w.count ∧ w1.content = w.content ∧
       ∃ t, w1.history = w.history ++ t) ∨
    (∃ e we, runGuardList path cfg gs w = .error (e, we) ∧
       we.count = w.count ∧ we.content = w.content ∧
       ∃ t, we.history = w.history ++ t) := by
  induction gs generalizing w with
  | nil => exact Or.inl ⟨true, w, rfl, rfl, rfl, [], by simp⟩
  | cons g rest ih =>
      cases hgp : g path cfg.ctx with
      | error e =>
          refine Or.inr ⟨e, w, ?_, rfl, rfl, [], by simp⟩
          simp [runGuardList, hgp]
      | ok pr =>
          obtain ⟨b, ps⟩ := pr
          cases b with
          | false =>
              refine Or.inl ⟨false,
                { w with history := w.history ++ ps,
                         warnings := w.warnings ++ [guardBlockedWarning path] },
                ?_, rfl, rfl, ps, rfl⟩
              simp [runGuardList, hgp]
          | true =>
              have heq : runGuardList path cfg (g :: rest) w =
                  runGuardList path cfg rest
                    { w with history := w.history ++ ps } := by
                simp [runGuardList, hgp]
              rcases ih { w with history := w.history ++ ps } with
                ⟨b, w1, hr, hcnt, hct, t, hh⟩ | ⟨e, we, hr, hcnt, hct, t, hh⟩
              · exact Or.inl ⟨b, w1, by rw [heq, hr], hcnt, hct, ps ++ t,
                  by rw [hh]; simp⟩
              · exact Or.inr ⟨e, we, by rw [heq, hr], hcnt, hct, ps ++ t,
                  by rw [hh]; simp⟩

theorem runGuards_frame (r : EnhancedRoutes) (path : String) (w : World) :
    (∃ b w1, runGuards r path w = .ok (b, w1) ∧
       w1.count = w.count ∧ w1.content = w.content ∧
       ∃ t, w1.history = w.history ++ t) ∨
    (∃ e we, runGuards r path w = .error (e, we) ∧
       we.count = w.count ∧ we.content = w.content ∧
       ∃ t, we.history = w.history ++ t) := by
  unfold runGuards
  cases hc : getRouteConfig r path with
  | none => exact Or.inl ⟨true, w, rfl, rfl, rfl, [], by simp⟩
  | some cfg =>
      by_cases he : cfg.guards.isEmpty
      · simp only [he, if_true]
        exact Or.inl ⟨true, w, rfl, rfl, rfl, [], by simp⟩
      · simp only [he, if_false]
        exact runGuardList_frame path cfg cfg.guards w

theorem getPageContent_frame (r : EnhancedRoutes) (path : String) (w : World) :
    (∃ c w1, getPageContent r path w = .ok (c, w1) ∧
       w1.count = w.count ∧ w1.content = w.content ∧ w1.history = w.history ∧
       (pageLookup r path = some (Except.ok c) ∨
        ∃ e, c = getErrorPageContent e)) ∨
    (∃ e we, getPageContent r path w = .error (e, we) ∧
       we.count = w.count ∧ we.content = w.content ∧
       we.history = w.history) := by
  cases hp : pageLookup r path with
  | none =>
      cases hE : r.config.onError with
      | none =>
          refine Or.inl ⟨getErrorPageContent "getPageContent is not a function",
            { w with errorLog := w.errorLog ++
              ["Error loading page content for \"" ++ path ++ "\": "
                ++ "getPageContent is not a function"] },
            ?_, rfl, rfl, rfl,
            Or.inr ⟨"getPageContent is not a function", rfl⟩⟩
          simp only [getPageContent, hp, hE]
      | some h =>
          cases hh : h "getPageContent is not a function" path with
          | ok u =>
              refine Or.inl
                ⟨getErrorPageContent "getPageContent is not a function",
                 { w with
                   errorLog := w.errorLog ++
                     ["Error loading page content for \"" ++ path ++ "\": "
                       ++ "getPageContent is not a function"],
                   errorHookCalls := w.errorHookCalls ++
                     [("getPageContent is not a function", path)] },
                 ?_, rfl, rfl, rfl,
                 Or.inr ⟨"getPageContent is not a function", rfl⟩⟩
              simp only [getPageContent, hp, hE, hh]
          | error e2 =>
              refine Or.inr ⟨e2,
                { w with
                  errorLog := w.errorLog ++
                    ["Error loading page content for \"" ++ path ++ "\": "
                      ++ "getPageContent is not a function"],
                  errorHookCalls := w.errorHookCalls ++
                    [("getPageContent is not a function", path)] },
                ?_, rfl, rfl, rfl⟩
              simp only [getPageContent, hp, hE, hh]
  | some p =>
      cases p with
      | ok c =>
          refine Or.inl ⟨c, w, ?_, rfl, rfl, rfl, Or.inl rfl⟩
          simp only [getPageContent, hp]
      | error e =>
          cases hE : r.config.onError with
          | none =>
              refine Or.inl ⟨getErrorPageContent e,
                { w with errorLog := w.errorLog ++
                  ["Error loading page content for \"" ++ path ++ "\": " ++ e] },
                ?_, rfl, rfl, rfl, Or.inr ⟨e, rfl⟩⟩
              simp only [getPageContent, hp, hE]
          | some h =>
              cases hh : h e path with
              | ok u =>
                  refine Or.inl ⟨getErrorPageContent e,
                    { w with
                      errorLog := w.errorLog ++
                        ["Error loading page content for \"" ++ path ++ "\": "
                          ++ e],
                      errorHookCalls := w.errorHookCalls ++ [(e, path)] },
                    ?_, rfl, rfl, rfl, Or.inr ⟨e, rfl⟩⟩
                  simp only [getPageContent, hp, hE, hh]
              | error e2 =>
                  refine Or.inr ⟨e2,
                    { w with
                      errorLog := w.errorLog ++
                        ["Error loading page content for \"" ++ path ++ "\": "
                          ++ e],
                      errorHookCalls := w.errorHookCalls ++ [(e, path)] },
                    ?_, rfl, rfl, rfl⟩
                  simp only [getPageContent, hp, hE, hh]

theorem tryBlock_frame (r : EnhancedRoutes) (path : String) (w2 : World) :
    (∃ w1, tryBlock r path w2 = .ok w1 ∧ w1.count = w2.count ∧
       w1.history = w2.history ∧
       ((∃ c, pageLookup r path = some (Except.ok c) ∧ w1.content = c) ∨
        ∃ e, w1.content = getErrorPageContent e)) ∨
    (∃ e we, tryBlock r path w2 = .error (e, we) ∧ we.count = w2.count ∧
       we.history = w2.history) := by
  rcases getPageContent_frame r path { w2 with content := loadingStateContent }
    with ⟨c, w4, hgc, hcnt, hct, hh, horig⟩ | ⟨e, we, hgc, hcnt, hct, hh⟩
  · have horig' : (∃ c0, pageLookup r path = some (Except.ok c0) ∧
        ({ w4 with content := c } : World).content = c0) ∨
        ∃ e0, ({ w4 with content := c } : World).content
          = getErrorPageContent e0 := by
      rcases horig with hpl | ⟨e0, hc0⟩
      · exact Or.inl ⟨c, hpl, rfl⟩
      · exact Or.inr ⟨e0, by rw [hc0]⟩
    cases hA : r.config.onAfterNavigate with
    | none =>
        exact Or.inl ⟨{ w4 with content := c },
          by simp only [tryBlock, hgc, hA], hcnt, hh, horig'⟩
    | some h =>
        cases hh2 : h path with
        | ok u =>
            exact Or.inl ⟨{ w4 with content := c },
              by simp only [tryBlock, hgc, hA, hh2], hcnt, hh, horig'⟩
        | error e =>
            exact Or.inr ⟨e, { w4 with content := c },
              by simp only [tryBlock, hgc, hA, hh2], hcnt, hh⟩
  · exact Or.inr ⟨e, we, by simp only [tryBlock, hgc], hcnt, hh⟩

theorem catchBlock_frame (r : EnhancedRoutes) (path e : String) (we : World) :
    (∃ w1, catchBlock r path e we = .ok w1 ∧ w1.count = we.count ∧
       w1.history = we.history ∧
       ∃ e1, w1.content = getErrorPageContent e1) ∨
    (∃ e2 w1, catchBlock r path e we = .error (e2, w1) ∧
       w1.count = we.count ∧ w1.history = we.history ∧
       ∃ e1, w1.content = getErrorPageContent e1) := by
  cases hE : r.config.onError with
  | none =>
      refine Or.inl ⟨{ we with
          errorLog := we.errorLog ++ ["Error updating page content: " ++ e],
          content := getErrorPageContent e },
        ?_, rfl, rfl, e, rfl⟩
      simp only [catchBlock, hE]
  | some h =>
      cases hh : h e path with
      | ok u =>
          refine Or.inl ⟨{ we with
              errorLog := we.errorLog ++ ["Error updating page content: " ++ e],
              content := getErrorPageContent e,
              errorHookCalls := we.errorHookCalls ++ [(e, path)] },
            ?_, rfl, rfl, e, rfl⟩
          simp only [catchBlock, hE, hh]
      | error e2 =>
          refine Or.inr ⟨e2, { we with
              errorLog := we.errorLog ++ ["Error updating page content: " ++ e],
              content := getErrorPageContent e,
              errorHookCalls := we.errorHookCalls ++ [(e, path)] },
            ?_, rfl, rfl, e, rfl⟩
          simp only [catchBlock, hE, hh]

theorem tryCatchStmt_frame (r : EnhancedRoutes) (path : String) (w2 : World) :
    (∃ w1, tryCatchStmt r path w2 = .ok w1 ∧ w1.count = w2.count ∧
       w1.history = w2.history ∧
       ((∃ c, pageLookup r path = some (Except.ok c) ∧ w1.content = c) ∨
        ∃ e, w1.content = getErrorPageContent e)) ∨
    (∃ e2 w1, tryCatchStmt r path w2 = .error (e2, w1) ∧
       w1.count = w2.count ∧ w1.history = w2.history) := by
  rcases tryBlock_frame r path w2 with
    ⟨w1, htr, hcnt, hh, horig⟩ | ⟨e, we, htr, hcnt, hh⟩
  · exact Or.inl ⟨w1, by simp only [tryCatchStmt, htr], hcnt, hh, horig⟩
  · rcases catchBlock_frame r path e we with
      ⟨w1, hcb, hc2, hh2, e1, hcont⟩ | ⟨e2, w1, hcb, hc2, hh2, e1, hcont⟩
    · exact Or.inl ⟨w1, by simp only [tryCatchStmt, htr]; exact hcb,
        hc2.trans hcnt, hh2.trans hh, Or.inr ⟨e1, hcont⟩⟩
    · exact Or.inr ⟨e2, w1, by simp only [tryCatchStmt, htr]; exact hcb,
        hc2.trans hcnt, hh2.trans hh⟩

theorem updatePageContent_frame (r : EnhancedRoutes) (path : String)
    (w : World) :
    (∃ w1, updatePageContent r path w = .ok w1 ∧ w1.count = w.count ∧
       (∃ t, w1.history = w.history ++ t) ∧
       (w1.content = w.content ∨
        (∃ c, pageLookup r path = some (Except.ok c) ∧ w1.content = c) ∨
        ∃ e, w1.content = getErrorPageContent e)) ∨
    (∃ e we, updatePageContent r path w = .error (e, we) ∧
       we.count = w.count ∧ ∃ t, we.history = w.history ++ t) := by
  rcases runGuards_frame r path w with
    ⟨b, w1, hr, hcnt, hct, t1, hh⟩ | ⟨e, we, hr, hcnt, hct, t1, hh⟩
  · cases b with
    | false =>
        exact Or.inl ⟨w1, by simp only [updatePageContent, hr], hcnt,
          ⟨t1, hh⟩, Or.inl hct⟩
    | true =>
        have hcore : ∀ heq : updatePageContent r path w = tryCatchStmt r path w1,
            (∃ w2, updatePageContent r path w = .ok w2 ∧ w2.count = w.count ∧
              (∃ t, w2.history = w.history ++ t) ∧
              (w2.content = w.content ∨
               (∃ c, pageLookup r path = some (Except.ok c) ∧ w2.content = c) ∨
               ∃ e, w2.content = getErrorPageContent e)) ∨
            (∃ e we, updatePageContent r path w = .error (e, we) ∧
              we.count = w.count ∧ ∃ t, we.history = w.history ++ t) := by
          intro heq
          rcases tryCatchStmt_frame r path w1 with
            ⟨w2, htc, hc2, hh2, horig⟩ | ⟨e2, w2, htc, hc2, hh2⟩
          · exact Or.inl ⟨w2, by rw [heq, htc], hc2.trans hcnt,
              ⟨t1, hh2.trans hh⟩, Or.inr horig⟩
          · exact Or.inr ⟨e2, w2, by rw [heq, htc], hc2.trans hcnt,
              t1, hh2.trans hh⟩
        cases hB : r.config.onBeforeNavigate with
        | none => exact hcore (by simp only [updatePageContent, hr, hB])
        | some hbk =>
            cases hbb : hbk path with
            | ok u =>
                exact hcore (by simp only [updatePageContent, hr, hB, hbb])
            | error eb =>
                exact Or.inr ⟨eb, w1,
                  by simp only [updatePageContent, hr, hB, hbb], hcnt, t1, hh⟩
  · exact Or.inr ⟨e, we, by simp only [updatePageContent, hr], hcnt, t1, hh⟩

/-! ## Claim C1 -/

/-- C1: `navigate` never throws — its result type is a plain `World`, every
failure of the underlying `loadPageContent` being caught by its
`try`/`catch` — and the Content Sink ends in one of exactly four states:
unchanged (guard denial), the resolved provider output, the generic error
panel of `getErrorPageContent` (failures handled at the `updateContent`
boundary), or the navigation error panel (failures reaching `navigate`'s own
`catch`). In particular no failure leaves the loading placeholder or a raw
rejection in the Content Sink. -/
theorem navigate_error_contained (r : EnhancedRoutes) (page : String)
    (w : World) :
    (navigate r page w).content = w.content ∨
    (∃ c, pageLookup r page = some (Except.ok c) ∧
      (navigate r page w).content = c) ∨
    (∃ e, (navigate r page w).content = getErrorPageContent e) ∨
    (navigate r page w).content = navigationErrorContent := by
  have hframe := updatePageContent_frame r page
    { w with history := w.history ++ ["/" ++ page], count := w.count + 1 }
  rcases hframe with ⟨w1, hu, _, _, hcont⟩ | ⟨e, we, hu, _, _⟩
  · have hnav : navigate r page w = w1 := by
      simp only [navigate, loadPageContent, hu]
    rcases hcont with h | ⟨c, hpl, h⟩ | ⟨e, h⟩
    · exact Or.inl (by rw [hnav]; exact h)
    · exact Or.inr (Or.inl ⟨c, hpl, by rw [hnav]; exact h⟩)
    · exact Or.inr (Or.inr (Or.inl ⟨e, by rw [hnav]; exact h⟩))
  · refine Or.inr (Or.inr (Or.inr ?_))
    simp only [navigate, loadPageContent, hu]

/-! ## Claim C6 -/

/-- C6, counterexample: a guard-denied navigation (no content swap occurs —
the Content Sink is unchanged) still increments the offline-navigation
counter, because `loadPageContent` increments it before calling
`updatePageContent` — so "incremented on every successful content swap and
only then" is false as stated. -/
theorem counter_increment_cex :
    (navigate denyRouter "admin" w0).count = w0.count + 1 ∧
    (navigate denyRouter "admin" w0).content = w0.content :=
  ⟨rfl, rfl⟩

/-- C6 (amended): the offline-navigation counter is incremented exactly once
on EVERY navigation attempt — at the start of `loadPageContent`, before
guards run and before any content resolution — including guard-denied and
failing navigations, not only successful content swaps. -/
theorem navigate_count_increment (r : EnhancedRoutes) (page : String)
    (w : World) : (navigate r page w).count = w.count + 1 := by
  have hframe := updatePageContent_frame r page
    { w with history := w.history ++ ["/" ++ page], count := w.count + 1 }
  rcases hframe with ⟨w1, hu, hcnt, _, _⟩ | ⟨e, we, hu, hcnt, _⟩
  · have hnav : navigate r page w = w1 := by
      simp only [navigate, loadPageContent, hu]
    rw [hnav]
    exact hcnt
  · simp only [navigate, loadPageContent, hu]
    exact hcnt

/-! ## Claim C10 -/

/-- C10: `navigate(event, P)` pushes `/P` as a new history entry before the
counter update, guard evaluation and content resolution — unconditionally on
the navigation's outcome: whatever happens afterwards (guard denial with or
without guard-performed redirects, provider failure, hook failure), the
resulting history is the old history, then `/P`, then only entries pushed
later (by guards). -/
theorem navigate_pushes_address_first (r : EnhancedRoutes) (page : String)
    (w : World) :
    ∃ t, (navigate r page w).history = (w.history ++ ["/" ++ page]) ++ t := by
  have hframe := updatePageContent_frame r page
    { w with history := w.history ++ ["/" ++ page], count := w.count + 1 }
  rcases hframe with ⟨w1, hu, _, ⟨t, hh⟩, _⟩ | ⟨e, we, hu, _, t, hh⟩
  · refine ⟨t, ?_⟩
    simp only [navigate, loadPageContent, hu]
    exact hh
  · refine ⟨t, ?_⟩
    simp only [navigate, loadPageContent, hu]
    exact hh

/-! ## Claim C9 -/

theorem runGuardList_true_all (path : String) (cfg : RouteConfig) :
    ∀ (gs : List Guard) (w w1 : World),
      runGuardList path cfg gs w = .ok (true, w1) →
      ∀ g ∈ gs, ∃ ps, g path cfg.ctx = Except.ok (true, ps) := by
  intro gs
  induction gs with
  | nil =>
      intro w w1 hrun g hg
      cases hg
  | cons g0 rest ih =>
      intro w w1 hrun g hg
      cases hgp : g0 path cfg.ctx with
      | error e =>
          rw [show runGuardList path cfg (g0 :: rest) w
            = .error (e, w) by simp [runGuardList, hgp]] at hrun
          cases hrun
      | ok pr =>
          obtain ⟨b, ps⟩ := pr
          cases b with
          | false =>
              simp only [runGuardList, hgp] at hrun
              simp at hrun
          | true =>
              have hrun' : runGuardList path cfg rest
                  { w with history := w.history ++ ps } = .ok (true, w1) := by
                rw [show runGuardList path cfg (g0 :: rest) w
                  = runGuardList path cfg rest
                      { w with history := w.history ++ ps }
                  by simp [runGuardList, hgp]] at hrun
                exact hrun
              rcases List.mem_cons.mp hg with rfl | hg'
              · exact ⟨ps, hgp⟩
              · exact ih _ _ hrun' g hg'

theorem runGuardList_all_true (path : String) (cfg : RouteConfig) :
    ∀ (gs : List Guard) (w : World),
      (∀ g ∈ gs, ∃ ps, g path cfg.ctx = Except.ok (true, ps)) →
      ∃ w1, runGuardList path cfg gs w = .ok (true, w1) := by
  intro gs
  induction gs with
  | nil => exact fun w _ => ⟨w, rfl⟩
  | cons g0 rest ih =>
      intro w h
      obtain ⟨ps, hgp⟩ := h g0 (List.mem_cons_self g0 rest)
      obtain ⟨w1, hw1⟩ := ih { w with history := w.history ++ ps }
        (fun g hg => h g (List.mem_cons_of_mem _ hg))
      exact ⟨w1, by simp [runGuardList, hgp, hw1]⟩

/-- C9: `runGuards` (i) returns `true` immediately — without touching the
world — when the resolved route configuration is absent or its guard list is
empty; (ii) short-circuits at the first denying guard: the guards after it
are irrelevant to the result (any tail gives the same outcome), which is
`false` with the denial warning; (iii) yields `true` exactly when every guard
in the sequence allowed. -/
theorem runGuards_spec (r : EnhancedRoutes) (path : String) (w : World) :
    ((getRouteConfig r path = none → runGuards r path w = .ok (true, w)) ∧
     (∀ cfg, getRouteConfig r path = some cfg → cfg.guards = [] →
        runGuards r path w = .ok (true, w))) ∧
    (∀ (cfg : RouteConfig) (gs1 : List Guard) (gd : Guard)
       (gs2 gs2' : List Guard) (ps : List String),
       (∀ g ∈ gs1, guardAllows path cfg g) →
       gd path cfg.ctx = Except.ok (false, ps) →
       runGuardList path cfg (gs1 ++ gd :: gs2) w =
         runGuardList path cfg (gs1 ++ gd :: gs2') w ∧
       runGuardList path cfg (gs1 ++ gd :: gs2) w =
         .ok (false, { w with
           history := w.history ++ ps,
           warnings := w.warnings ++ [guardBlockedWarning path] })) ∧
    ((∃ w1, runGuards r path w = .ok (true, w1)) ↔
      ∀ cfg, getRouteConfig r path = some cfg →
        ∀ g ∈ cfg.guards, ∃ ps, g path cfg.ctx = Except.ok (true, ps)) := by
  refine ⟨⟨?_, ?_⟩, ?_, ?_⟩
  · intro h
    simp [runGuards, h]
  · intro cfg hc hgl
    simp [runGuards, hc, hgl]
  · intro cfg gs1 gd gs2 gs2' ps h1 hd
    have d1 := runGuardList_denies path cfg gs1 gd gs2 ps h1 hd w
    have d2 := runGuardList_denies path cfg gs1 gd gs2' ps h1 hd w
    exact ⟨by rw [d1, d2], d1⟩
  · constructor
    · rintro ⟨w1, hok⟩ cfg hc g hg
      simp only [runGuards, hc] at hok
      cases hgl : cfg.guards with
      | nil =>
          rw [hgl] at hg
          cases hg
      | cons g0 rest =>
          rw [hgl] at hok
          simp only [List.isEmpty_cons, Bool.false_eq_true, if_false] at hok
          exact runGuardList_true_all path cfg (g0 :: rest) w w1 hok g
            (by rw [← hgl]; exact hg)
    · intro hall
      cases hc : getRouteConfig r path with
      | none => exact ⟨w, by simp [runGuards, hc]⟩
      | some cfg =>
          cases hgl : cfg.guards with
          | nil => exact ⟨w, by simp [runGuards, hc, hgl]⟩
          | cons g0 rest =>
              obtain ⟨w1, hw1⟩ := runGuardList_all_true path cfg (g0 :: rest) w
                (by
                  intro g hg
                  exact hall cfg hc g (by rw [hgl]; exact hg))
              exact ⟨w1, by simp [runGuards, hc, hgl, hw1]⟩

/-- Witness for C9: the empty-guards part and the short-circuit part of
`runGuards_spec`, each at a concrete input. -/
theorem runGuards_spec_witness :
    (getRouteConfig demoRouter "home" = some (cfgPlain "Home") ∧
     (cfgPlain "Home").guards = [] ∧
     runGuards demoRouter "home" w0 = Except.ok (true, w0)) ∧
    runGuardList "admin" (cfgPlain "X")
        ([] ++ (fun _ _ => Except.ok (false, [])) :: []) w0 =
      Except.ok (false, { w0 with
        history := w0.history ++ [],
        warnings := w0.warnings ++ [guardBlockedWarning "admin"] }) := by
  refine ⟨⟨rfl, rfl, ?_⟩, ?_⟩
  · exact (runGuards_spec demoRouter "home" w0).1.2 (cfgPlain "Home") rfl rfl
  · exact ((runGuards_spec demoRouter "admin" w0).2.1 (cfgPlain "X") []
      (fun _ _ => Except.ok (false, [])) [] [] []
      (fun g hg => absurd hg (List.not_mem_nil g)) rfl).2
